import Mathlib

/-!
Shallow embedding of the `gpuwithwgpu` compute-dispatch layer
(`src/lib.rs`, `src/kernel.rs`, `src/framework.rs`).

Modelling conventions:
* machine integers (`u64`, `usize`, `u32`) become `Nat`; none of the
  verified code paths can overflow for the inputs considered, and all
  arithmetic in the source is plain multiplication, division and
  comparison on in-range values;
* `std::mem::size_of::<T>()` becomes an explicit field `sz` of the
  buffer model, since Lean types carry no byte size;
* a Rust `&self` method that cannot mutate its receiver is embedded as
  a function that returns the receiver unchanged alongside its result
  when a claim speaks about the receiver being unchanged;
* a process `panic!` and a returned `Err` are distinguished as separate
  constructors of an outcome type;
* opaque wgpu handles (`wgpu::Buffer`, `wgpu::ShaderModule`,
  `wgpu::Device`, `wgpu::Queue`, `wgpu::Adapter`, `BindingResource`)
  become type parameters: the layer never inspects them, it only
  threads them through.
-/

/-- Access mode of a storage-buffer binding (`lib.rs`, `GpuBufferUsage`). -/
inductive GpuBufferUsage : Type
  | ReadOnly
  | ReadWrite
deriving DecidableEq, Repr

/-- Typed device buffer (`lib.rs`, `GpuBuffer<T>`).  `sz` models
`std::mem::size_of::<T>()` in bytes, `size` is the byte size of the backing
device allocation (field `size: u64`), and `contents` is the element
sequence currently stored in device memory.  The `fw: &Framework` borrow and
the `wgpu::Buffer` handle carry no data relevant to the claims and are
omitted. -/
structure GpuBuffer (α : Type) : Type where
  sz : Nat
  size : Nat
  contents : List α
deriving DecidableEq, Repr

/-- kernel.rs, `GpuBuffer::size`: returns the stored byte size. -/
def GpuBuffer.byteSize (self : GpuBuffer α) : Nat :=
  self.size

/-- kernel.rs, `GpuBuffer::capacity`: `self.size() / size_of::<T>() as u64`
(integer division on `u64`). -/
def GpuBuffer.capacity (self : GpuBuffer α) : Nat :=
  self.byteSize / self.sz

/-- kernel.rs, `GpuBuffer::from_slice`: sets
`size = slice.len() * size_of::<T>()` and uploads the slice's contents into
the fresh allocation (`create_buffer_init` with `contents = cast_slice(slice)`). -/
def GpuBuffer.from_slice (sz : Nat) (slice : List α) : GpuBuffer α :=
  { sz := sz, size := slice.length * sz, contents := slice }

/-- kernel.rs, `GpuBuffer::with_capacity`: allocates
`size = capacity * size_of::<T>()` bytes with `mapped_at_creation: false`.
WebGPU guarantees fresh buffers read as zeroes, modelled here by `default`
elements; no claim depends on this choice. -/
def GpuBuffer.with_capacity [Inhabited α] (sz : Nat) (capacity : Nat) : GpuBuffer α :=
  { sz := sz, size := capacity * sz, contents := List.replicate capacity default }

/-- Well-formedness tying the byte size to the element contents; both
constructors establish it and nothing ever resizes a buffer. -/
def GpuBuffer.WellFormed (self : GpuBuffer α) : Prop :=
  self.size = self.contents.length * self.sz

/-- Outcome of `GpuBuffer::read`.  `ok out count` models `Ok(count)` with the
output slice now holding `out`; `mapError` models the
`BufferError::AsyncMapError` propagated by the question-mark operator after
`map_async` fails; `panicked` models a process panic inside the call
(`bytemuck::cast_slice` on a misaligned byte range, or `copy_from_slice` on
mismatched lengths). -/
inductive ReadOutcome (α : Type) : Type
  | ok (out : List α) (count : Nat)
  | mapError
  | panicked
deriving DecidableEq, Repr

/-- kernel.rs, `GpuBuffer::read`: computes
`output_size = buf.len() * size_of::<T>()`, clamps the download to the
buffer's byte size (`download_size = if output_size > self.size { self.size }
else { output_size }`), maps the byte range `..download_size` for reading,
reinterprets the mapped bytes as elements (`bytemuck::cast_slice`, which
panics unless the byte count is an exact multiple of a positive element
size), copies them into `buf` (`copy_from_slice`, which panics when source
and destination lengths differ) and returns `Ok(download_size)`.  The method
takes `&self`, so the buffer is returned unchanged as the first component;
`mapOk` says whether the backend reported success for the asynchronous map
request. -/
def GpuBuffer.read (self : GpuBuffer α) (buf : List α) (mapOk : Bool) :
    GpuBuffer α × ReadOutcome α :=
  let output_size := buf.length * self.sz
  let download_size := if output_size > self.size then self.size else output_size
  if mapOk = false then
    (self, ReadOutcome.mapError)
  else if self.sz = 0 ∨ download_size % self.sz ≠ 0 then
    (self, ReadOutcome.panicked)
  else
    let mapped := self.contents.take (download_size / self.sz)
    if buf.length = mapped.length then
      (self, ReadOutcome.ok mapped download_size)
    else
      (self, ReadOutcome.panicked)

/-- Outcome of `GpuBuffer::read_vec`, with the same three-way split as
`ReadOutcome` but carrying the returned vector. -/
inductive VecOutcome (α : Type) : Type
  | ok (v : List α)
  | mapError
  | panicked
deriving DecidableEq, Repr

/-- kernel.rs, `GpuBuffer::read_vec`: allocates
`vec![zeroed(); self.capacity()]`, fills it through `self.read(&mut buf)`,
propagates a map error with the question-mark operator, and returns
`Ok(buf)`. -/
def GpuBuffer.read_vec [Inhabited α] (self : GpuBuffer α) (mapOk : Bool) :
    VecOutcome α :=
  let buf : List α := List.replicate self.capacity default
  match (self.read buf mapOk).2 with
  | ReadOutcome.ok out _ => VecOutcome.ok out
  | ReadOutcome.mapError => VecOutcome.mapError
  | ReadOutcome.panicked => VecOutcome.panicked

/-- Shader stage visibility; `bind_buffer` only ever uses
`wgpu::ShaderStages::COMPUTE`. -/
inductive ShaderStages : Type
  | COMPUTE
deriving DecidableEq, Repr

/-- wgpu `BufferBindingType`; the layer only uses
`Storage { read_only }`. -/
inductive BufferBindingType : Type
  | Storage (read_only : Bool)
deriving DecidableEq, Repr

/-- wgpu `BindGroupLayoutEntry` as built by `bind_buffer`; the constant
fields `min_binding_size: None` and `count: None` are omitted. -/
structure BindGroupLayoutEntry : Type where
  binding : Nat
  visibility : ShaderStages
  ty : BufferBindingType
  has_dynamic_offset : Bool
deriving DecidableEq, Repr

/-- wgpu `BindGroupEntry`: a binding index and a resource.  `ρ` stands for
`wgpu::BindingResource`, produced by `GpuBuffer::as_binding_resource` (the
buffer's entire backing allocation); the layer treats it as opaque. -/
structure BindGroupEntry (ρ : Type) : Type where
  binding : Nat
  resource : ρ
deriving DecidableEq, Repr

/-- lib.rs, `DescriptorSet`: accumulated bind-group layout entries and
bind-group entries. -/
structure DescriptorSet (ρ : Type) : Type where
  layout : List BindGroupLayoutEntry
  set : List (BindGroupEntry ρ)
deriving DecidableEq, Repr

/-- `DescriptorSet` derives `Default` in the source: both lists empty. -/
instance : Inhabited (DescriptorSet ρ) :=
  ⟨⟨[], []⟩⟩

/-- kernel.rs, `DescriptorSet::bind_buffer`: reads
`bind_id = self.layout.len()`, builds one layout entry (compute visibility,
storage buffer, `read_only` iff the usage is `ReadOnly`, no dynamic offset)
and one bind-group entry at that index whose resource is the buffer's entire
backing allocation (abstracted as `res`), and pushes each onto its list. -/
def DescriptorSet.bind_buffer (self : DescriptorSet ρ) (res : ρ)
    (usage : GpuBufferUsage) : DescriptorSet ρ :=
  let bind_id := self.layout.length
  let entry_layout : BindGroupLayoutEntry :=
    { binding := bind_id
      visibility := ShaderStages.COMPUTE
      ty := BufferBindingType.Storage (usage == GpuBufferUsage.ReadOnly)
      has_dynamic_offset := false }
  let entry : BindGroupEntry ρ := { binding := bind_id, resource := res }
  { layout := self.layout ++ [entry_layout], set := self.set ++ [entry] }

/-- Chains `bind_buffer` over a list of (resource, usage) pairs starting from
`DescriptorSet::default()`, modelling a call-site sequence of bindings. -/
def DescriptorSet.build (entries : List (ρ × GpuBufferUsage)) : DescriptorSet ρ :=
  entries.foldl (fun d e => d.bind_buffer e.1 e.2) default

/-- lib.rs, `Shader`: wrapper around a `wgpu::ShaderModule`, abstracted as a
value of the opaque type `σ`. -/
structure Shader (σ : Type) : Type where
  module : σ
deriving DecidableEq, Repr

/-- lib.rs, `Program`: a shader reference, an entry-point name and an ordered
list of descriptor sets. -/
structure Program (σ ρ : Type) : Type where
  shader : Shader σ
  entry_point : String
  descriptors : List (DescriptorSet ρ)
deriving DecidableEq, Repr

/-- kernel.rs, `Program::new`: starts with an empty descriptor list. -/
def Program.new (shader : Shader σ) (entry_point : String) : Program σ ρ :=
  { shader := shader, entry_point := entry_point, descriptors := [] }

/-- kernel.rs, `Program::add_descriptor`: pushes one descriptor set. -/
def Program.add_descriptor (self : Program σ ρ) (desc : DescriptorSet ρ) :
    Program σ ρ :=
  { self with descriptors := self.descriptors ++ [desc] }

/-- wgpu `BindGroupLayout` as created by `create_bind_group_layout`: the
descriptor's accumulated layout entries. -/
structure BindGroupLayout : Type where
  entries : List BindGroupLayoutEntry
deriving DecidableEq, Repr

/-- wgpu `BindGroup` as created by `create_bind_group`: the layout it was
created against and the descriptor's accumulated resource entries. -/
structure BindGroup (ρ : Type) : Type where
  layout : BindGroupLayout
  entries : List (BindGroupEntry ρ)
deriving DecidableEq, Repr

/-- wgpu `PipelineLayout` as created by `create_pipeline_layout`: the ordered
bind-group layouts (`push_constant_ranges` is always empty and omitted). -/
structure PipelineLayout : Type where
  bind_group_layouts : List BindGroupLayout
deriving DecidableEq, Repr

/-- wgpu `ComputePipeline` as created by `create_compute_pipeline`: pipeline
layout, shader module and entry point. -/
structure ComputePipeline (σ : Type) : Type where
  layout : PipelineLayout
  module : σ
  entry_point : String
deriving DecidableEq, Repr

/-- lib.rs, `Kernel`: compiled pipeline, binding groups and entry point (the
`fw: &Framework` borrow is omitted). -/
structure Kernel (σ ρ : Type) : Type where
  pipeline : ComputePipeline σ
  bindgroups : List (BindGroup ρ)
  entry_point : String
deriving DecidableEq, Repr

/-- kernel.rs, `Kernel::new`: for each descriptor set of the program, in
order, creates one bind-group layout from its layout entries and one bind
group from its resource entries against that layout, pushing both onto their
lists; then creates the pipeline layout referencing all bind-group layouts in
the same order and compiles the compute pipeline from that layout, the
shader module and the entry point. -/
def Kernel.new (program : Program σ ρ) : Kernel σ ρ :=
  let bindgroup_layouts : List BindGroupLayout :=
    program.descriptors.map fun desc => { entries := desc.layout }
  let bindgroups : List (BindGroup ρ) :=
    program.descriptors.map fun desc =>
      { layout := { entries := desc.layout }, entries := desc.set }
  let compute_pipeline_layout : PipelineLayout :=
    { bind_group_layouts := bindgroup_layouts }
  let compute_pipeline : ComputePipeline σ :=
    { layout := compute_pipeline_layout
      module := program.shader.module
      entry_point := program.entry_point }
  { pipeline := compute_pipeline
    bindgroups := bindgroups
    entry_point := program.entry_point }

/-- One recorded command of a compute pass. -/
inductive ComputeCmd (σ ρ : Type) : Type
  | setPipeline (p : ComputePipeline σ)
  | setBindGroup (index : Nat) (g : BindGroup ρ)
  | insertDebugMarker (label : String)
  | dispatchWorkgroups (x y z : Nat)
deriving DecidableEq, Repr

/-- Recognises a dispatch command. -/
def ComputeCmd.isDispatch : ComputeCmd σ ρ → Bool
  | ComputeCmd.dispatchWorkgroups _ _ _ => true
  | _ => false

/-- A recorded compute pass: its command list in recording order. -/
structure ComputePass (σ ρ : Type) : Type where
  cmds : List (ComputeCmd σ ρ)
deriving DecidableEq, Repr

/-- A finished command buffer: the passes it recorded, in order. -/
structure CommandBuffer (σ ρ : Type) : Type where
  passes : List (ComputePass σ ρ)
deriving DecidableEq, Repr

/-- One `queue.submit` call: the command buffers submitted together. -/
structure Submit (σ ρ : Type) : Type where
  buffers : List (CommandBuffer σ ρ)
deriving DecidableEq, Repr

/-- The command sequence `Kernel::enqueue` records inside its single compute
pass: `set_pipeline`, then `set_bind_group(id, bindgroup)` for each binding
group in enumeration order, then `insert_debug_marker(entry_point)`, then
`dispatch_workgroups(x, y, z)`. -/
def Kernel.passCmds (self : Kernel σ ρ) (x y z : Nat) : List (ComputeCmd σ ρ) :=
  ComputeCmd.setPipeline self.pipeline ::
    (self.bindgroups.enum.map fun ig => ComputeCmd.setBindGroup ig.1 ig.2) ++
      [ComputeCmd.insertDebugMarker self.entry_point,
        ComputeCmd.dispatchWorkgroups x y z]

/-- kernel.rs, `Kernel::enqueue`: creates one command encoder, records one
compute pass with `passCmds`, finishes the encoder and performs one
`queue.submit` with that single command buffer; the method takes `&self`, so
the kernel is returned unchanged, and the returned list is the sequence of
submit calls performed (exactly one).  Nothing in the function waits for
execution: it returns right after the submit. -/
def Kernel.enqueue (self : Kernel σ ρ) (x y z : Nat) :
    Kernel σ ρ × List (Submit σ ρ) :=
  (self, [{ buffers := [{ passes := [{ cmds := self.passCmds x y z }] }] }])

/-- lib.rs, `Framework`: device, queue and adapter handles, all opaque. -/
structure Framework (δ κ A : Type) : Type where
  device : δ
  queue : κ
  adapter : A
deriving DecidableEq, Repr

/-- Outcome of `Framework::default`: either a process panic with a message or
a constructed `Framework`.  There is no error constructor because the
function's return type is `Self`, not a `Result`. -/
inductive StartOutcome (δ κ A : Type) : Type
  | panicked (msg : String)
  | ok (fw : Framework δ κ A)
deriving DecidableEq, Repr

/-- framework.rs, `Framework::default`: requests an adapter
(`request_adapter` yields an `Option`, and `.expect(..)` panics on `None`),
then requests a device and queue from the adapter (`request_device` yields a
`Result`, and the `match` panics on `Err`), and on success constructs the
`Framework` from the device, queue and adapter.  Backend and power-preference
selection and the spawned poller thread affect no claim and are omitted;
`adapterFound` models the result of `request_adapter` and `request_device`
the device request against the found adapter. -/
def Framework.mkDefault (adapterFound : Option A)
    (request_device : A → Except String (δ × κ)) : StartOutcome δ κ A :=
  match adapterFound with
  | none => StartOutcome.panicked "Failed to find an appropriate adapter"
  | some adapter =>
    match request_device adapter with
    | Except.error e =>
        StartOutcome.panicked ("Failed at device creation: " ++ e)
    | Except.ok (d, q) =>
        StartOutcome.ok { device := d, queue := q, adapter := adapter }

/-- On a well-formed buffer with positive element size, the capacity is the
number of stored elements. -/
theorem GpuBuffer.capacity_eq_length (b : GpuBuffer α) (hwf : b.WellFormed)
    (hsz : 0 < b.sz) : b.capacity = b.contents.length := by
  unfold GpuBuffer.capacity GpuBuffer.byteSize
  rw [hwf, Nat.mul_div_cancel _ hsz]

/-- Successful-download helper: when the output slice fits within capacity
and the map succeeds, `read` leaves the buffer unchanged, fills the output
with the first `out.length` device elements and returns the byte count
`out.length * sz`. -/
theorem GpuBuffer.read_ok_of_le (b : GpuBuffer α) (out : List α)
    (hwf : b.WellFormed) (hsz : 0 < b.sz) (hle : out.length ≤ b.capacity) :
    b.read out true =
      (b, ReadOutcome.ok (b.contents.take out.length) (out.length * b.sz)) := by
  have hcap := b.capacity_eq_length hwf hsz
  have hlen : out.length ≤ b.contents.length := hcap ▸ hle
  have hout : ¬ out.length * b.sz > b.size := by
    rw [hwf]
    exact Nat.not_lt.mpr (Nat.mul_le_mul_right _ hlen)
  have hmod : ¬ (b.sz = 0 ∨ out.length * b.sz % b.sz ≠ 0) := by
    push_neg
    exact ⟨by omega, Nat.mul_mod_left _ _⟩
  have hdiv : out.length * b.sz / b.sz = out.length := Nat.mul_div_cancel _ hsz
  have htake : (b.contents.take out.length).length = out.length := by
    rw [List.length_take]
    exact Nat.min_eq_left hlen
  simp only [GpuBuffer.read]
  rw [if_neg hout, if_neg (by decide : ¬ true = false), if_neg hmod, hdiv,
    if_pos htake.symm]

/-- C1: the claim states that a successful `read(out)` returns the element
count `min(out.len(), capacity)` as its Ok value.  At the concrete input
below (element size 4, device contents of 5 elements, output slice of
length 2) the code instead returns `Ok(8)`: `download_size` is a byte count,
`min(out.len(), capacity) * size_of::<T>()`, although the method's own doc
comment promises "how many elements were read".  The second conjunct records
that 8 differs from the element count 2 the claim predicts. -/
theorem read_count_is_byte_count :
    ((GpuBuffer.mk 4 20 [10, 20, 30, 40, 50] : GpuBuffer Nat).read [0, 0]
        true).2 =
      ReadOutcome.ok [10, 20] 8 ∧
      ¬ (8 = min (List.length ([0, 0] : List Nat))
            (GpuBuffer.mk 4 20 [10, 20, 30, 40, 50] : GpuBuffer Nat).capacity) := by
  constructor
  · decide
  · decide

/-- C2: for a well-formed buffer holding element sequence `v` and an output
slice no longer than the capacity, a successful `read` leaves the buffer
unchanged (first component) and overwrites the output slice with exactly the
first `out.length` elements of `v`, truncated from the front. -/
theorem read_fills_prefix (b : GpuBuffer α) (out : List α)
    (hwf : b.WellFormed) (hsz : 0 < b.sz) (hle : out.length ≤ b.capacity) :
    b.read out true =
      (b, ReadOutcome.ok (b.contents.take out.length) (out.length * b.sz)) :=
  GpuBuffer.read_ok_of_le b out hwf hsz hle

/-- Witness for C2 at element size 4, contents of 5 elements, output slice of
length 2. -/
theorem read_fills_prefix_witness :
    (GpuBuffer.mk 4 20 [1, 2, 3, 4, 5] : GpuBuffer Nat).read [9, 9] true =
      (GpuBuffer.mk 4 20 [1, 2, 3, 4, 5], ReadOutcome.ok [1, 2] 8) := by
  have h := read_fills_prefix (GpuBuffer.mk 4 20 [1, 2, 3, 4, 5]) [9, 9]
    rfl (by decide) (by decide)
  simpa using h

/-- C6: for positive element size, `with_capacity sz n` has capacity `n` and
byte size `n * sz`; `from_slice sz s` has byte size `s.length * sz`; for both
constructors the size is an exact multiple of the element size and the
capacity equals size divided by element size. -/
theorem constructor_size_invariants [Inhabited α] (sz n : Nat) (s : List α)
    (hsz : 0 < sz) :
    (GpuBuffer.with_capacity (α := α) sz n).capacity = n ∧
    (GpuBuffer.with_capacity (α := α) sz n).size = n * sz ∧
    (GpuBuffer.from_slice sz s).size = s.length * sz ∧
    (GpuBuffer.with_capacity (α := α) sz n).size % sz = 0 ∧
    (GpuBuffer.from_slice sz s).size % sz = 0 ∧
    (GpuBuffer.with_capacity (α := α) sz n).capacity =
      (GpuBuffer.with_capacity (α := α) sz n).size / sz ∧
    (GpuBuffer.from_slice sz s).capacity =
      (GpuBuffer.from_slice sz s).size / sz := by
  refine ⟨?_, rfl, rfl, Nat.mul_mod_left n sz, Nat.mul_mod_left s.length sz,
    rfl, rfl⟩
  exact Nat.mul_div_cancel _ hsz

/-- Witness for C6 at element size 4, capacity 3, slice of length 2. -/
theorem constructor_size_invariants_witness :
    (GpuBuffer.with_capacity (α := Nat) 4 3).capacity = 3 ∧
    (GpuBuffer.with_capacity (α := Nat) 4 3).size = 3 * 4 ∧
    (GpuBuffer.from_slice 4 [5, 6]).size = List.length [5, 6] * 4 ∧
    (GpuBuffer.with_capacity (α := Nat) 4 3).size % 4 = 0 ∧
    (GpuBuffer.from_slice 4 [5, 6]).size % 4 = 0 ∧
    (GpuBuffer.with_capacity (α := Nat) 4 3).capacity =
      (GpuBuffer.with_capacity (α := Nat) 4 3).size / 4 ∧
    (GpuBuffer.from_slice 4 [5, 6]).capacity =
      (GpuBuffer.from_slice 4 [5, 6]).size / 4 :=
  constructor_size_invariants 4 3 [5, 6] (by decide)

/-- C7: uploading a host sequence with `from_slice` and immediately
downloading with `read_vec` (map succeeding, no dispatch in between) returns
the original sequence unchanged. -/
theorem from_slice_read_vec_roundtrip [Inhabited α] (sz : Nat) (s : List α)
    (hsz : 0 < sz) :
    (GpuBuffer.from_slice sz s).read_vec true = VecOutcome.ok s := by
  have hwf : (GpuBuffer.from_slice sz s).WellFormed := rfl
  have hcap : (GpuBuffer.from_slice sz s).capacity = s.length :=
    GpuBuffer.capacity_eq_length _ hwf hsz
  simp only [GpuBuffer.read_vec]
  rw [GpuBuffer.read_ok_of_le _ _ hwf hsz (Nat.le_of_eq (List.length_replicate _ _))]
  simp only [List.length_replicate, hcap]
  simp [GpuBuffer.from_slice, List.take_length]

/-- Witness for C7 at element size 4 and host sequence of length 3. -/
theorem from_slice_read_vec_roundtrip_witness :
    (GpuBuffer.from_slice 4 [7, 8, 9]).read_vec true =
      VecOutcome.ok [7, 8, 9] :=
  from_slice_read_vec_roundtrip 4 [7, 8, 9] (by decide)

/-- C8: on a well-formed buffer with positive element size, a successful
`read_vec` returns the whole device contents, a vector whose length is the
buffer's full capacity, each element taken from the corresponding device
position. -/
theorem read_vec_returns_full_capacity [Inhabited α] (b : GpuBuffer α)
    (hwf : b.WellFormed) (hsz : 0 < b.sz) :
    b.read_vec true = VecOutcome.ok b.contents ∧
      b.contents.length = b.capacity := by
  have hcap := b.capacity_eq_length hwf hsz
  refine ⟨?_, hcap.symm⟩
  simp only [GpuBuffer.read_vec]
  rw [GpuBuffer.read_ok_of_le _ _ hwf hsz (Nat.le_of_eq (List.length_replicate _ _))]
  simp [hcap]

/-- Witness for C8 at element size 2 and device contents of 3 elements. -/
theorem read_vec_returns_full_capacity_witness :
    (GpuBuffer.mk 2 6 [4, 5, 6] : GpuBuffer Nat).read_vec true =
        VecOutcome.ok [4, 5, 6] ∧
      List.length [4, 5, 6] = (GpuBuffer.mk 2 6 [4, 5, 6] : GpuBuffer Nat).capacity :=
  read_vec_returns_full_capacity (GpuBuffer.mk 2 6 [4, 5, 6]) rfl (by decide)

/-- C10: on a well-formed buffer with positive element size, calling `read`
with an output slice strictly longer (in bytes) than the buffer panics after
the map completes: the mapped range is clamped to the buffer's byte size
while `copy_from_slice` requires equal source and destination lengths. -/
theorem read_larger_out_panics (b : GpuBuffer α) (out : List α)
    (hwf : b.WellFormed) (hsz : 0 < b.sz) (hgt : b.size < out.length * b.sz) :
    (b.read out true).2 = ReadOutcome.panicked := by
  have hlt : b.contents.length < out.length := by
    have := hwf ▸ hgt
    exact Nat.lt_of_mul_lt_mul_right this
  have hmod : ¬ (b.sz = 0 ∨ b.size % b.sz ≠ 0) := by
    push_neg
    refine ⟨by omega, ?_⟩
    rw [hwf]
    exact Nat.mul_mod_left _ _
  have hdiv : b.size / b.sz = b.contents.length := by
    rw [hwf, Nat.mul_div_cancel _ hsz]
  have hne : ¬ out.length = (b.contents.take b.contents.length).length := by
    simp only [List.take_length, List.length_take]
    omega
  simp only [GpuBuffer.read]
  rw [if_pos hgt, if_neg (by decide : ¬ true = false), if_neg hmod, hdiv,
    if_neg hne]

/-- Witness for C10: element size 4, buffer of 2 elements, output slice of
3 elements. -/
theorem read_larger_out_panics_witness :
    ((GpuBuffer.mk 4 8 [1, 2] : GpuBuffer Nat).read [0, 0, 0] true).2 =
      ReadOutcome.panicked :=
  read_larger_out_panics (GpuBuffer.mk 4 8 [1, 2]) [0, 0, 0] rfl (by decide)
    (by decide)

/-- Closed form of folding `bind_buffer` over a list of (resource, usage)
pairs from an arbitrary starting set: both lists only grow at the end, and
the appended entries carry consecutive binding indices starting at the
accumulated layout length. -/
theorem DescriptorSet.build_go (d : DescriptorSet ρ)
    (entries : List (ρ × GpuBufferUsage)) :
    (entries.foldl (fun d e => d.bind_buffer e.1 e.2) d).layout =
        d.layout ++ (entries.enumFrom d.layout.length).map
          (fun e =>
            { binding := e.1, visibility := ShaderStages.COMPUTE,
              ty := BufferBindingType.Storage (e.2.2 == GpuBufferUsage.ReadOnly),
              has_dynamic_offset := false }) ∧
      (entries.foldl (fun d e => d.bind_buffer e.1 e.2) d).set =
        d.set ++ (entries.enumFrom d.layout.length).map
          (fun e => { binding := e.1, resource := e.2.1 }) := by
  induction entries generalizing d with
  | nil => simp [List.enumFrom]
  | cons e es ih =>
    obtain ⟨ih1, ih2⟩ := ih (d.bind_buffer e.1 e.2)
    have hlay : (d.bind_buffer e.1 e.2).layout =
        d.layout ++
          [{ binding := d.layout.length, visibility := ShaderStages.COMPUTE,
             ty := BufferBindingType.Storage (e.2 == GpuBufferUsage.ReadOnly),
             has_dynamic_offset := false }] := rfl
    have hset : (d.bind_buffer e.1 e.2).set =
        d.set ++ [{ binding := d.layout.length, resource := e.1 }] := rfl
    have hlen : (d.bind_buffer e.1 e.2).layout.length = d.layout.length + 1 := by
      rw [hlay]
      simp
    refine ⟨?_, ?_⟩
    · rw [List.foldl_cons, ih1, hlay]
      simp [List.enumFrom, List.append_assoc]
    · rw [List.foldl_cons, ih2, hset, hlay]
      simp [List.enumFrom, List.append_assoc]

/-- C3: building a descriptor set by chained `bind_buffer` calls from the
default (empty) set yields, for the n-th call, exactly one appended layout
entry and one appended resource entry, both at binding index n (the number of
previously appended slots), with compute-stage visibility and storage-buffer
type whose read-only flag is set iff the usage was `ReadOnly`; moreover every
further call only appends one entry to the end of each list (nothing is
removed or reordered). -/
theorem bind_buffer_appends_in_order (entries : List (ρ × GpuBufferUsage)) :
    (DescriptorSet.build entries).layout.length = entries.length ∧
    (DescriptorSet.build entries).set.length = entries.length ∧
    (∀ (i : Nat) (res : ρ) (usage : GpuBufferUsage),
      entries[i]? = some (res, usage) →
      (DescriptorSet.build entries).layout[i]? =
          some ({ binding := i, visibility := ShaderStages.COMPUTE,
                  ty := BufferBindingType.Storage
                    (usage == GpuBufferUsage.ReadOnly),
                  has_dynamic_offset := false } : BindGroupLayoutEntry) ∧
        (DescriptorSet.build entries).set[i]? =
          some ({ binding := i, resource := res } : BindGroupEntry ρ)) ∧
    (∀ res usage,
      (DescriptorSet.build (entries ++ [(res, usage)])).layout =
          (DescriptorSet.build entries).layout ++
            [{ binding := entries.length, visibility := ShaderStages.COMPUTE,
               ty := BufferBindingType.Storage
                 (usage == GpuBufferUsage.ReadOnly),
               has_dynamic_offset := false }] ∧
        (DescriptorSet.build (entries ++ [(res, usage)])).set =
          (DescriptorSet.build entries).set ++
            [{ binding := entries.length, resource := res }]) := by
  have hd : (default : DescriptorSet ρ) = ⟨[], []⟩ := rfl
  have hgo := DescriptorSet.build_go (default : DescriptorSet ρ) entries
  rw [hd] at hgo
  have hl : (DescriptorSet.build entries).layout =
      (entries.enumFrom 0).map
        (fun e =>
          { binding := e.1, visibility := ShaderStages.COMPUTE,
            ty := BufferBindingType.Storage (e.2.2 == GpuBufferUsage.ReadOnly),
            has_dynamic_offset := false }) := by
    simpa [DescriptorSet.build, hd] using hgo.1
  have hs : (DescriptorSet.build entries).set =
      (entries.enumFrom 0).map
        (fun e => { binding := e.1, resource := e.2.1 }) := by
    simpa [DescriptorSet.build, hd] using hgo.2
  have hlen : (DescriptorSet.build entries).layout.length = entries.length := by
    rw [hl]
    simp [List.enumFrom_length]
  refine ⟨hlen, ?_, ?_, ?_⟩
  · rw [hs]
    simp [List.enumFrom_length]
  · intro i res usage hget
    constructor
    · rw [hl, List.getElem?_map, List.getElem?_enumFrom, hget]
      simp
    · rw [hs, List.getElem?_map, List.getElem?_enumFrom, hget]
      simp
  · intro res usage
    have happ : DescriptorSet.build (entries ++ [(res, usage)]) =
        (DescriptorSet.build entries).bind_buffer res usage := by
      simp [DescriptorSet.build, List.foldl_append]
    rw [happ]
    constructor
    · show (DescriptorSet.build entries).layout ++ _ = _
      rw [hlen]
    · show (DescriptorSet.build entries).set ++ _ = _
      rw [hlen]

/-- Witness for C3 at two concrete bindings (resources modelled by `Nat`
identifiers 5 and 7). -/
theorem bind_buffer_appends_in_order_witness :
    (DescriptorSet.build [((5 : Nat), GpuBufferUsage.ReadOnly),
        (7, GpuBufferUsage.ReadWrite)]).layout[0]? =
        some { binding := 0, visibility := ShaderStages.COMPUTE,
               ty := BufferBindingType.Storage true,
               has_dynamic_offset := false } ∧
      (DescriptorSet.build [((5 : Nat), GpuBufferUsage.ReadOnly),
        (7, GpuBufferUsage.ReadWrite)]).set[1]? =
        some { binding := 1, resource := 7 } := by
  have h := bind_buffer_appends_in_order
    [((5 : Nat), GpuBufferUsage.ReadOnly), (7, GpuBufferUsage.ReadWrite)]
  have h0 := (h.2.2.1 0 5 GpuBufferUsage.ReadOnly (by decide)).1
  have h1 := (h.2.2.1 1 7 GpuBufferUsage.ReadWrite (by decide)).2
  exact ⟨h0, h1⟩

/-- Filtering for dispatch commands skips every `setBindGroup` command. -/
theorem filter_isDispatch_setBindGroups (l : List (Nat × BindGroup ρ)) :
    ((l.map fun ig =>
        (ComputeCmd.setBindGroup ig.1 ig.2 : ComputeCmd σ ρ)).filter
      ComputeCmd.isDispatch) = [] := by
  induction l with
  | nil => rfl
  | cons a t ih => simp [ComputeCmd.isDispatch, ih]

/-- C4: `Kernel::new` creates one bind-group layout per descriptor set from
its accumulated layout entries and one bind group from its accumulated
resource entries against that layout, in descriptor order; it collects the
layouts in the same order into the pipeline layout and stores exactly as many
binding groups as there are descriptor sets. -/
theorem kernel_new_builds_groups_in_order (program : Program σ ρ) :
    (Kernel.new program).bindgroups.length = program.descriptors.length ∧
    (∀ (i : Nat) (d : DescriptorSet ρ), program.descriptors[i]? = some d →
      (Kernel.new program).bindgroups[i]? =
        some ({ layout := { entries := d.layout }, entries := d.set } :
          BindGroup ρ)) ∧
    (Kernel.new program).pipeline.layout.bind_group_layouts =
      program.descriptors.map (fun d => { entries := d.layout }) ∧
    (Kernel.new program).pipeline.layout.bind_group_layouts.length =
      program.descriptors.length := by
  refine ⟨by simp [Kernel.new], ?_, rfl, by simp [Kernel.new]⟩
  intro i d hget
  simp [Kernel.new, List.getElem?_map, hget]

/-- Witness for C4 on a program of two descriptor sets. -/
theorem kernel_new_builds_groups_in_order_witness :
    (Kernel.new (Program.mk (Shader.mk ()) "main"
        [DescriptorSet.mk [] [],
          DescriptorSet.mk
            [{ binding := 0, visibility := ShaderStages.COMPUTE,
               ty := BufferBindingType.Storage true,
               has_dynamic_offset := false }]
            [{ binding := 0, resource := (3 : Nat) }]])).bindgroups.length =
        2 ∧
      (Kernel.new (Program.mk (Shader.mk ()) "main"
        [DescriptorSet.mk [] [],
          DescriptorSet.mk
            [{ binding := 0, visibility := ShaderStages.COMPUTE,
               ty := BufferBindingType.Storage true,
               has_dynamic_offset := false }]
            [{ binding := 0, resource := (3 : Nat) }]])).bindgroups[1]? =
        some
          { layout :=
              { entries :=
                  [{ binding := 0, visibility := ShaderStages.COMPUTE,
                     ty := BufferBindingType.Storage true,
                     has_dynamic_offset := false }] },
            entries := [{ binding := 0, resource := 3 }] } := by
  have h := kernel_new_builds_groups_in_order
    (Program.mk (Shader.mk ()) "main"
      [DescriptorSet.mk [] [],
        DescriptorSet.mk
          [{ binding := 0, visibility := ShaderStages.COMPUTE,
             ty := BufferBindingType.Storage true,
             has_dynamic_offset := false }]
          [{ binding := 0, resource := (3 : Nat) }]])
  exact ⟨h.1, h.2.1 1 _ rfl⟩

/-- C5: `enqueue(x, y, z)` leaves the kernel unchanged and performs exactly
one queue submission of one command buffer holding one compute pass whose
recorded commands set the pipeline first, bind the i-th binding group at set
index i in order, and issue exactly one dispatch, over the (x, y, z)
work-group grid, as the final command. -/
theorem enqueue_records_single_pass (k : Kernel σ ρ) (x y z : Nat) :
    (k.enqueue x y z).1 = k ∧
    (k.enqueue x y z).2 =
      [{ buffers := [{ passes := [{ cmds := k.passCmds x y z }] }] }] ∧
    (k.passCmds x y z)[0]? = some (ComputeCmd.setPipeline k.pipeline) ∧
    (∀ (i : Nat) (g : BindGroup ρ), k.bindgroups[i]? = some g →
      (k.passCmds x y z)[i + 1]? = some (ComputeCmd.setBindGroup i g)) ∧
    (k.passCmds x y z)[k.bindgroups.length + 2]? =
      some (ComputeCmd.dispatchWorkgroups x y z) ∧
    (k.passCmds x y z).length = k.bindgroups.length + 3 ∧
    ((k.passCmds x y z).filter ComputeCmd.isDispatch) =
      [ComputeCmd.dispatchWorkgroups x y z] := by
  refine ⟨rfl, rfl, by simp [Kernel.passCmds], ?_, ?_, ?_, ?_⟩
  · intro i g hget
    have hi : i < k.bindgroups.length := by
      by_contra hge
      rw [List.getElem?_eq_none (Nat.le_of_not_lt hge)] at hget
      exact Option.noConfusion hget
    show (ComputeCmd.setPipeline k.pipeline ::
        ((k.bindgroups.enum.map fun ig =>
            ComputeCmd.setBindGroup ig.1 ig.2) ++
          [ComputeCmd.insertDebugMarker k.entry_point,
            ComputeCmd.dispatchWorkgroups x y z]))[i + 1]? = _
    rw [List.getElem?_cons_succ,
      List.getElem?_append_left (by simpa [List.enum_length] using hi),
      List.getElem?_map, List.getElem?_enum, hget]
    rfl
  · show (ComputeCmd.setPipeline k.pipeline ::
        ((k.bindgroups.enum.map fun ig =>
            ComputeCmd.setBindGroup ig.1 ig.2) ++
          [ComputeCmd.insertDebugMarker k.entry_point,
            ComputeCmd.dispatchWorkgroups x y z]))[k.bindgroups.length + 2]? =
      _
    rw [List.getElem?_cons_succ,
      List.getElem?_append_right
        (by simp [List.enum_length] : _ ≤ k.bindgroups.length + 1)]
    simp [List.enum_length]
  · simp [Kernel.passCmds, List.enum_length]
  · simp [Kernel.passCmds, List.filter_append, ComputeCmd.isDispatch,
      filter_isDispatch_setBindGroups]

/-- Witness for C5 on a kernel with one binding group, dispatched over a
4 by 2 by 1 grid. -/
theorem enqueue_records_single_pass_witness :
    ((Kernel.mk (σ := Unit) (ρ := Nat)
          (ComputePipeline.mk (PipelineLayout.mk [BindGroupLayout.mk []]) ()
            "main")
          [BindGroup.mk (BindGroupLayout.mk []) []] "main").enqueue 4 2 1).1 =
        Kernel.mk
          (ComputePipeline.mk (PipelineLayout.mk [BindGroupLayout.mk []]) ()
            "main")
          [BindGroup.mk (BindGroupLayout.mk []) []] "main" ∧
      ((Kernel.mk (σ := Unit) (ρ := Nat)
          (ComputePipeline.mk (PipelineLayout.mk [BindGroupLayout.mk []]) ()
            "main")
          [BindGroup.mk (BindGroupLayout.mk []) []] "main").passCmds 4 2
          1)[0 + 1]? =
        some (ComputeCmd.setBindGroup 0 (BindGroup.mk (BindGroupLayout.mk []) [])) ∧
      (((Kernel.mk (σ := Unit) (ρ := Nat)
          (ComputePipeline.mk (PipelineLayout.mk [BindGroupLayout.mk []]) ()
            "main")
          [BindGroup.mk (BindGroupLayout.mk []) []] "main").passCmds 4 2
          1).filter ComputeCmd.isDispatch) =
        [ComputeCmd.dispatchWorkgroups 4 2 1] := by
  have h := enqueue_records_single_pass (σ := Unit) (ρ := Nat)
    (Kernel.mk
      (ComputePipeline.mk (PipelineLayout.mk [BindGroupLayout.mk []]) ()
        "main")
      [BindGroup.mk (BindGroupLayout.mk []) []] "main") 4 2 1
  exact ⟨h.1, h.2.2.2.1 0 (BindGroup.mk (BindGroupLayout.mk []) []) rfl,
    h.2.2.2.2.2.2⟩

/-- C9: session construction never yields an error value: its outcome is
either a process panic or a constructed framework; a missing adapter panics
with the adapter message, a failed device request panics with the device
message, and on success the framework holds the obtained device, queue and
adapter. -/
theorem framework_default_panics_or_constructs (adapterFound : Option A)
    (request_device : A → Except String (δ × κ)) :
    ((∃ m, Framework.mkDefault adapterFound request_device =
        StartOutcome.panicked m) ∨
      (∃ fw, Framework.mkDefault adapterFound request_device =
        StartOutcome.ok fw)) ∧
    (adapterFound = none →
      Framework.mkDefault adapterFound request_device =
        StartOutcome.panicked "Failed to find an appropriate adapter") ∧
    (∀ a, adapterFound = some a → ∀ e, request_device a = Except.error e →
      Framework.mkDefault adapterFound request_device =
        StartOutcome.panicked ("Failed at device creation: " ++ e)) ∧
    (∀ a, adapterFound = some a → ∀ d q,
      request_device a = Except.ok (d, q) →
      Framework.mkDefault adapterFound request_device =
        StartOutcome.ok { device := d, queue := q, adapter := a }) := by
  refine ⟨?_, ?_, ?_, ?_⟩
  · cases h : Framework.mkDefault adapterFound request_device with
    | panicked m => exact Or.inl ⟨m, rfl⟩
    | ok fw => exact Or.inr ⟨fw, rfl⟩
  · intro h
    subst h
    rfl
  · intro a ha e he
    subst ha
    simp [Framework.mkDefault, he]
  · intro a ha d q hr
    subst ha
    simp [Framework.mkDefault, hr]

/-- Witness for C9: a missing adapter panics; a successful request constructs
the framework from device 1, queue 2 and the adapter. -/
theorem framework_default_panics_or_constructs_witness :
    Framework.mkDefault (none : Option Unit)
        (fun _ => Except.ok ((0 : Nat), (0 : Nat))) =
      StartOutcome.panicked "Failed to find an appropriate adapter" ∧
    Framework.mkDefault (some ())
        (fun _ => Except.ok ((1 : Nat), (2 : Nat))) =
      StartOutcome.ok { device := 1, queue := 2, adapter := () } := by
  have h1 := framework_default_panics_or_constructs (none : Option Unit)
    (fun _ => Except.ok ((0 : Nat), (0 : Nat)))
  have h2 := framework_default_panics_or_constructs (some ())
    (fun _ => Except.ok ((1 : Nat), (2 : Nat)))
  exact ⟨h1.2.1 rfl, h2.2.2.2 () rfl 1 2 rfl⟩
